import Mathlib

/-!
Shallow embedding of `src/backend/app/api/course.py` (ayuda_server).

The file under verification is a set of HTTP route handlers.  The two
collaborator services (`CourseSearchService`, `Neo4jService`) are not part
of the provided source, so they are modelled as parameters of the
handlers: the search collaborator's outcome is passed in as an
`Except SearchError SearchResults` value, the graph collaborator as a
configuration flag together with a function from course id and completed
course list to a prerequisite status.  Each handler becomes a pure
function returning `Except HTTPError <response>`, where `HTTPError`
mirrors FastAPI's `HTTPException` (status code and detail string).
-/

/-- A missing-prerequisite descriptor as produced by
`Neo4jService.check_prerequisites_completion`: a record with at least a
`name` field (`p['name']` is the only field read by the handler). -/
structure MissingPrereq where
  name : String
  deriving Repr, DecidableEq

/-- The value returned by
`neo4j_service.check_prerequisites_completion(course_id, completed_courses)`:
`{"prerequisites_met": bool, "missing_prerequisites": [...]}`. -/
structure PrereqStatus where
  prerequisites_met : Bool
  missing_prerequisites : List MissingPrereq
  deriving Repr, DecidableEq

/-- A course dictionary as it appears in `search_results["courses"]`.
The handler reads only `course["id"]` (converted with `str`); the rest of
the record is carried along unchanged by the `{**course, ...}` splice and
is modelled by the remaining fields. -/
structure CourseDict where
  id : Nat
  course_id : String
  course_name : String
  deriving Repr, DecidableEq

/-- An entry of `eligible_courses` / `ineligible_courses`.  The Python
code splices extra keys into a copy of the course dictionary
(`{**course, "prerequisite_status": ..., ...}`); here the copied course is
the `base` field and each optionally-added key is an `Option` field
(`none` = key absent, as in the unchecked branch where the raw course
dictionaries are used). -/
structure AnnotatedCourse where
  base : CourseDict
  prerequisite_status : Option PrereqStatus
  eligible : Option Bool
  missing_prerequisites : Option (List MissingPrereq)
  prerequisite_message : Option String
  deriving Repr, DecidableEq

/-- The value returned by `search_service.search_courses(...)`:
`{"courses": [...], "total_count": n, "has_more": b}` (the keys the
handler reads or passes through). -/
structure SearchResults where
  courses : List CourseDict
  total_count : Nat
  has_more : Bool
  deriving Repr, DecidableEq

/-- Failure modes of the search collaborator as the handler distinguishes
them: a `ValueError` (caught first, mapped to 400) or any other
exception (mapped to 500).  The payload is `str(e)`. -/
inductive SearchError where
  | valueError (msg : String)
  | otherError (msg : String)
  deriving Repr, DecidableEq

/-- Mirror of FastAPI's `HTTPException(status_code=..., detail=...)`. -/
structure HTTPError where
  status_code : Nat
  detail : String
  deriving Repr, DecidableEq

/-- The dictionary returned by the `/search` handler: the original
search-result keys plus the keys added by the handler.
`user_completed_courses` is only added in the prerequisite-checking
branch, hence an `Option`. -/
structure SearchResponse where
  courses : List CourseDict
  total_count : Nat
  has_more : Bool
  eligible_courses : List AnnotatedCourse
  ineligible_courses : List AnnotatedCourse
  prerequisites_checked : Bool
  user_completed_courses : Option (List String)
  eligible_count : Nat
  ineligible_count : Nat
  deriving Repr, DecidableEq

/-- A raw course dictionary used unchanged as an entry of
`eligible_courses` (the `else` branch: no keys added). -/
def rawEntry (c : CourseDict) : AnnotatedCourse :=
  { base := c, prerequisite_status := none, eligible := none,
    missing_prerequisites := none, prerequisite_message := none }

/-- `", ".join([p['name'] for p in missing])`. -/
def joinNames (missing : List MissingPrereq) : String :=
  String.intercalate ", " (missing.map MissingPrereq.name)

/-- The eligible entry built at course.py:103-107:
`{**course, "prerequisite_status": prereq_status, "eligible": True}`. -/
def eligibleEntry (c : CourseDict) (ps : PrereqStatus) : AnnotatedCourse :=
  { base := c, prerequisite_status := some ps, eligible := some true,
    missing_prerequisites := none, prerequisite_message := none }

/-- The ineligible entry built at course.py:110-116: the course copy with
status, `eligible: False`, the missing list, and
`f"Complete one of: {', '.join(...)}"`. -/
def ineligibleEntry (c : CourseDict) (ps : PrereqStatus) : AnnotatedCourse :=
  { base := c, prerequisite_status := some ps, eligible := some false,
    missing_prerequisites := some ps.missing_prerequisites,
    prerequisite_message :=
      some ("Complete one of: " ++ joinNames ps.missing_prerequisites) }

/-- The `for course in search_results["courses"]` loop of
course.py:92-116: each course's prerequisite status is computed and the
course is appended to the eligible or the ineligible list, preserving the
order of the input list within each. -/
def processCourses (check : CourseDict → PrereqStatus) :
    List CourseDict → List AnnotatedCourse × List AnnotatedCourse
  | [] => ([], [])
  | c :: rest =>
    let ps := check c
    let r := processCourses check rest
    if ps.prerequisites_met then
      (eligibleEntry c ps :: r.1, r.2)
    else
      (r.1, ineligibleEntry c ps :: r.2)

/-- The `/search` handler `search_courses` (course.py:16-148).

Parameters standing for collaborators and request data:
* `is_configured` — result of `neo4j_service.is_configured()`;
* `check_completion` — `neo4j_service.check_prerequisites_completion`,
  taking the stringified course id and the completed-course list;
* `search_result` — outcome of `search_service.search_courses(...)`
  (`.error` when that call raises, tagged `valueError` for a `ValueError`);
* `completed_courses` — `current_user.completed_courses` (`none` models
  Python `None`; `x or []` becomes `Option.getD [] `);
* `check_prerequisites` — the query flag. -/
def search_courses (is_configured : Bool)
    (check_completion : String → List String → PrereqStatus)
    (search_result : Except SearchError SearchResults)
    (completed_courses : Option (List String))
    (check_prerequisites : Bool) : Except HTTPError SearchResponse :=
  match search_result with
  | .error (.valueError msg) =>
    .error { status_code := 400, detail := "Invalid search parameters: " ++ msg }
  | .error (.otherError msg) =>
    .error { status_code := 500, detail := "Search failed: " ++ msg }
  | .ok sr =>
    let completed := completed_courses.getD []
    if check_prerequisites && is_configured then
      let r := processCourses
        (fun c => check_completion (toString c.id) completed) sr.courses
      .ok { courses := sr.courses, total_count := sr.total_count,
            has_more := sr.has_more,
            eligible_courses := r.1, ineligible_courses := r.2,
            prerequisites_checked := true,
            user_completed_courses := some completed,
            eligible_count := r.1.length, ineligible_count := r.2.length }
    else
      .ok { courses := sr.courses, total_count := sr.total_count,
            has_more := sr.has_more,
            eligible_courses := sr.courses.map rawEntry,
            ineligible_courses := [],
            prerequisites_checked := false,
            user_completed_courses := none,
            eligible_count := sr.courses.length, ineligible_count := 0 }

/-- A `datetime` value as far as the handlers use it: only
`.isoformat()` is called on it.  A present `datetime` object is always
truthy in Python, so `Option DateTime` models the nullable column. -/
structure DateTime where
  isoformat : String
  deriving Repr, DecidableEq

/-- A `Course` ORM row as read by `get_course_by_id` and
`get_courses_by_major`: nullable list columns are `Option`s
(`x or []` defaults them), `created_at` is a nullable timestamp. -/
structure Course where
  id : Nat
  course_id : String
  course_name : String
  course_description : String
  major : String
  domains : Option (List String)
  skills_associated : Option (List String)
  prerequisites : Option (List String)
  created_at : Option DateTime
  deriving Repr, DecidableEq

/-- The formatted course dictionary built at course.py:192-202 and
(identically) at course.py:260-270. -/
structure CourseData where
  id : String
  course_id : String
  course_name : String
  course_description : String
  major : String
  domains : List String
  skills_associated : List String
  prerequisites : List String
  created_at : Option String
  deriving Repr, DecidableEq

/-- The field-by-field formatting shared by course.py:192-202 and
course.py:260-270: id via `str`, list columns defaulted with `or []`,
`created_at.isoformat() if created_at else None`. -/
def formatCourse (c : Course) : CourseData :=
  { id := toString c.id, course_id := c.course_id,
    course_name := c.course_name,
    course_description := c.course_description, major := c.major,
    domains := c.domains.getD [], skills_associated := c.skills_associated.getD [],
    prerequisites := c.prerequisites.getD [],
    created_at := c.created_at.map DateTime.isoformat }

/-- The `/search/{course_id}` handler `get_course_by_id`
(course.py:150-211).  `lookup` is the result of
`search_service.get_course_by_id(course_id)` (`none` for a falsy/absent
course). -/
def get_course_by_id (course_id : String) (lookup : Option Course) :
    Except HTTPError CourseData :=
  match lookup with
  | none =>
    .error { status_code := 404,
             detail := "Course with ID '" ++ course_id ++ "' not found" }
  | some course => .ok (formatCourse course)

/-- The response envelope of `/major/{major}` (course.py:273-278). -/
structure MajorResponse where
  major : String
  courses : List CourseData
  total_count : Nat
  limit : Nat
  deriving Repr, DecidableEq

/-- Python's `str.upper()`: upper-case every character.  (The majors the
handler compares against are ASCII, where `Char.toUpper` agrees with
Python's upper-casing.) -/
def upper (s : String) : String := ⟨s.data.map Char.toUpper⟩

/-- The `valid_majors` list of course.py:242. -/
def valid_majors : List String := ["CSYE", "INFO", "DAMG"]

/-- The `/major/{major}` handler `get_courses_by_major`
(course.py:213-287).  `get_by_major` is the collaborator
`search_service.get_courses_by_major`, called with the upper-cased major
and the limit. -/
def get_courses_by_major (major : String) (limit : Nat)
    (get_by_major : String → Nat → List Course) :
    Except HTTPError MajorResponse :=
  if valid_majors.contains (upper major) then
    let courses := get_by_major (upper major) limit
    let formatted_courses := courses.map formatCourse
    .ok { major := upper major, courses := formatted_courses,
          total_count := formatted_courses.length, limit := limit }
  else
    .error { status_code := 400,
             detail := "Invalid major. Must be one of: " ++
               String.intercalate ", " valid_majors }

/-! ### Properties of the partition loop -/

theorem processCourses_fst (check : CourseDict → PrereqStatus)
    (l : List CourseDict) :
    (processCourses check l).1 =
      (l.filter fun c => (check c).prerequisites_met).map
        (fun c => eligibleEntry c (check c)) := by
  induction l with
  | nil => rfl
  | cons c rest ih =>
    cases hm : (check c).prerequisites_met <;>
      simp [processCourses, List.filter_cons, hm, ih]

theorem processCourses_snd (check : CourseDict → PrereqStatus)
    (l : List CourseDict) :
    (processCourses check l).2 =
      (l.filter fun c => !(check c).prerequisites_met).map
        (fun c => ineligibleEntry c (check c)) := by
  induction l with
  | nil => rfl
  | cons c rest ih =>
    cases hm : (check c).prerequisites_met <;>
      simp [processCourses, List.filter_cons, hm, ih]

theorem processCourses_fst_base (check : CourseDict → PrereqStatus)
    (l : List CourseDict) :
    (processCourses check l).1.map AnnotatedCourse.base =
      l.filter fun c => (check c).prerequisites_met := by
  rw [processCourses_fst, List.map_map]
  exact List.map_id _

theorem processCourses_snd_base (check : CourseDict → PrereqStatus)
    (l : List CourseDict) :
    (processCourses check l).2.map AnnotatedCourse.base =
      l.filter fun c => !(check c).prerequisites_met := by
  rw [processCourses_snd, List.map_map]
  exact List.map_id _

theorem processCourses_length (check : CourseDict → PrereqStatus)
    (l : List CourseDict) :
    (processCourses check l).1.length + (processCourses check l).2.length =
      l.length := by
  induction l with
  | nil => rfl
  | cons c rest ih =>
    cases hm : (check c).prerequisites_met <;>
      simp [processCourses, hm] <;> omega

theorem search_courses_checked (f : String → List String → PrereqStatus)
    (sr : SearchResults) (comp : Option (List String)) :
    search_courses true f (Except.ok sr) comp true =
      Except.ok
        { courses := sr.courses, total_count := sr.total_count,
          has_more := sr.has_more,
          eligible_courses :=
            (processCourses (fun c => f (toString c.id) (comp.getD [])) sr.courses).1,
          ineligible_courses :=
            (processCourses (fun c => f (toString c.id) (comp.getD [])) sr.courses).2,
          prerequisites_checked := true,
          user_completed_courses := some (comp.getD []),
          eligible_count :=
            (processCourses (fun c => f (toString c.id) (comp.getD [])) sr.courses).1.length,
          ineligible_count :=
            (processCourses (fun c => f (toString c.id) (comp.getD [])) sr.courses).2.length } :=
  rfl

/-! ### Claim theorems -/

/-- C1: with `check_prerequisites` true and the graph collaborator
configured, the search handler succeeds and in its response every course
returned by the search collaborator appears in exactly one of
`eligible_courses` and `ineligible_courses`, `eligible_count` and
`ineligible_count` equal the lengths of their sequences, and their sum
equals the number of courses the search collaborator returned. -/
theorem search_partition_invariant (f : String → List String → PrereqStatus)
    (sr : SearchResults) (comp : Option (List String)) :
    ∃ r, search_courses true f (Except.ok sr) comp true = Except.ok r ∧
      r.eligible_count = r.eligible_courses.length ∧
      r.ineligible_count = r.ineligible_courses.length ∧
      r.eligible_count + r.ineligible_count = sr.courses.length ∧
      (∀ c, c ∈ sr.courses ↔
        (c ∈ r.eligible_courses.map AnnotatedCourse.base ∨
         c ∈ r.ineligible_courses.map AnnotatedCourse.base)) ∧
      ∀ c, ¬ (c ∈ r.eligible_courses.map AnnotatedCourse.base ∧
              c ∈ r.ineligible_courses.map AnnotatedCourse.base) := by
  refine ⟨_, search_courses_checked f sr comp, rfl, rfl,
    processCourses_length _ _, ?_, ?_⟩
  · intro c
    rw [processCourses_fst_base, processCourses_snd_base]
    simp only [List.mem_filter, Bool.not_eq_true']
    constructor
    · intro hc
      cases hm : (f (toString c.id) (comp.getD [])).prerequisites_met
      · exact Or.inr ⟨hc, rfl⟩
      · exact Or.inl ⟨hc, rfl⟩
    · rintro (⟨hc, _⟩ | ⟨hc, _⟩) <;> exact hc
  · rintro c ⟨h1, h2⟩
    rw [processCourses_fst_base] at h1
    rw [processCourses_snd_base] at h2
    simp only [List.mem_filter, Bool.not_eq_true'] at h1 h2
    exact absurd h1.2 (by simp [h2.2])

/-- C2: when prerequisite checking is skipped (`check_prerequisites`
false) or the graph collaborator is unavailable, the response keeps the
raw search-result list unchanged and in order as `eligible_courses`, has
an empty `ineligible_courses`, `prerequisites_checked = false`,
`ineligible_count = 0` and `eligible_count` equal to the number of
returned courses (and no `user_completed_courses` key is added). -/
theorem search_unchecked (cfg : Bool) (f : String → List String → PrereqStatus)
    (sr : SearchResults) (comp : Option (List String)) (cp : Bool)
    (h : cp = false ∨ cfg = false) :
    search_courses cfg f (Except.ok sr) comp cp =
      Except.ok
        { courses := sr.courses, total_count := sr.total_count,
          has_more := sr.has_more,
          eligible_courses := sr.courses.map rawEntry,
          ineligible_courses := [], prerequisites_checked := false,
          user_completed_courses := none,
          eligible_count := sr.courses.length, ineligible_count := 0 } := by
  have hb : (cp && cfg) = false := by
    rcases h with h | h <;> simp [h]
  simp [search_courses, hb]

/-- Closed instance of `search_unchecked`: `check_prerequisites = false`
on a one-course result. -/
theorem search_unchecked_witness :
    ((false : Bool) = false ∨ (true : Bool) = false) ∧
    search_courses true (fun _ _ => ⟨true, []⟩)
        (Except.ok ⟨[⟨1, "CSYE6200", "OOD"⟩], 1, false⟩) none false =
      Except.ok ⟨[⟨1, "CSYE6200", "OOD"⟩], 1, false,
        [rawEntry ⟨1, "CSYE6200", "OOD"⟩], [], false, none, 1, 0⟩ :=
  ⟨Or.inl rfl,
    search_unchecked true (fun _ _ => ⟨true, []⟩)
      ⟨[⟨1, "CSYE6200", "OOD"⟩], 1, false⟩ none false (Or.inl rfl)⟩

/-- C3: a `ValueError` from the search collaborator surfaces as an HTTP
400 whose detail carries the validation message, and any other failure
surfaces as an HTTP 500 with the generic `Search failed` message; in both
cases the handler returns no response body (an `Except.error`, never a
partial `Except.ok`). -/
theorem search_error_to_http (cfg : Bool)
    (f : String → List String → PrereqStatus) (comp : Option (List String))
    (cp : Bool) (msg : String) :
    (search_courses cfg f (Except.error (SearchError.valueError msg)) comp cp =
      Except.error
        { status_code := 400,
          detail := "Invalid search parameters: " ++ msg }) ∧
    (search_courses cfg f (Except.error (SearchError.otherError msg)) comp cp =
      Except.error { status_code := 500, detail := "Search failed: " ++ msg }) :=
  ⟨rfl, rfl⟩

/-- C4: when the graph collaborator reports itself unconfigured, the
response is the one of the same request with `check_prerequisites = false`:
the flag has no effect on the output. -/
theorem search_unconfigured_flag_irrelevant
    (f : String → List String → PrereqStatus)
    (s : Except SearchError SearchResults) (comp : Option (List String))
    (cp : Bool) :
    search_courses false f s comp cp = search_courses false f s comp false := by
  cases s with
  | error e => cases e <;> rfl
  | ok sr => simp [search_courses]

/-- C5: with checking enabled, every entry of `ineligible_courses` is a
copy of a course of the search result whose prerequisites the graph
collaborator reports unmet, with the status attached, `eligible = false`,
the missing-prerequisite list attached, and a message equal to
`"Complete one of: "` followed by the missing names joined with `", "`. -/
theorem search_ineligible_shape (f : String → List String → PrereqStatus)
    (sr : SearchResults) (comp : Option (List String)) :
    ∃ r, search_courses true f (Except.ok sr) comp true = Except.ok r ∧
      ∀ e ∈ r.ineligible_courses,
        e.base ∈ sr.courses ∧
        (f (toString e.base.id) (comp.getD [])).prerequisites_met = false ∧
        e.prerequisite_status = some (f (toString e.base.id) (comp.getD [])) ∧
        e.eligible = some false ∧
        e.missing_prerequisites =
          some (f (toString e.base.id) (comp.getD [])).missing_prerequisites ∧
        e.prerequisite_message =
          some ("Complete one of: " ++ String.intercalate ", "
            ((f (toString e.base.id) (comp.getD [])).missing_prerequisites.map
              MissingPrereq.name)) := by
  refine ⟨_, search_courses_checked f sr comp, ?_⟩
  intro e he
  rw [processCourses_snd] at he
  obtain ⟨c, hc, rfl⟩ := List.mem_map.mp he
  rw [List.mem_filter, Bool.not_eq_true'] at hc
  exact ⟨hc.1, hc.2, rfl, rfl, rfl, rfl⟩

/-- C8: with checking enabled, every entry of `eligible_courses` is a
copy of a course of the search result whose prerequisites the graph
collaborator reports met, carrying the status and `eligible = true` and
no further keys; and the base courses of the eligible and the ineligible
sequences are exactly the matching and the non-matching courses of the
search-result list, each in the order of that list. -/
theorem search_eligible_shape_order (f : String → List String → PrereqStatus)
    (sr : SearchResults) (comp : Option (List String)) :
    ∃ r, search_courses true f (Except.ok sr) comp true = Except.ok r ∧
      (∀ e ∈ r.eligible_courses,
        e.base ∈ sr.courses ∧
        (f (toString e.base.id) (comp.getD [])).prerequisites_met = true ∧
        e.prerequisite_status = some (f (toString e.base.id) (comp.getD [])) ∧
        e.eligible = some true ∧
        e.missing_prerequisites = none ∧
        e.prerequisite_message = none) ∧
      r.eligible_courses.map AnnotatedCourse.base =
        sr.courses.filter
          (fun c => (f (toString c.id) (comp.getD [])).prerequisites_met) ∧
      r.ineligible_courses.map AnnotatedCourse.base =
        sr.courses.filter
          (fun c => !(f (toString c.id) (comp.getD [])).prerequisites_met) := by
  refine ⟨_, search_courses_checked f sr comp, ?_,
    processCourses_fst_base _ _, processCourses_snd_base _ _⟩
  intro e he
  rw [processCourses_fst] at he
  obtain ⟨c, hc, rfl⟩ := List.mem_map.mp he
  rw [List.mem_filter] at hc
  exact ⟨hc.1, hc.2, rfl, rfl, rfl, rfl⟩

/-- C9: a caller with `completed_courses = None` is handled exactly like
a caller with an empty completed list (the graph collaborator receives
`[]` in both cases), and when prerequisites are checked the response's
`user_completed_courses` is the empty list. -/
theorem search_null_completed (cfg : Bool)
    (f : String → List String → PrereqStatus)
    (s : Except SearchError SearchResults) (cp : Bool)
    (sr : SearchResults) :
    search_courses cfg f s none cp = search_courses cfg f s (some []) cp ∧
    ∃ r, search_courses true f (Except.ok sr) none true = Except.ok r ∧
      r.user_completed_courses = some [] := by
  constructor
  · cases s with
    | error e => cases e <;> rfl
    | ok sr2 => rfl
  · exact ⟨_, search_courses_checked f sr none, rfl⟩

/-- C6: the list-by-major operation depends on the major only through
its upper-casing (so "csye" and "CSYE" yield identical results), a major
whose upper-casing is outside {CSYE, INFO, DAMG} yields a 400 error
whose message lists the allowed values, and every successful response
carries the upper-cased major. -/
theorem get_courses_by_major_case_insensitive (m : String) (l : Nat)
    (g : String → Nat → List Course) :
    (∀ m2 : String, upper m = upper m2 →
      get_courses_by_major m l g = get_courses_by_major m2 l g) ∧
    (valid_majors.contains (upper m) = false →
      get_courses_by_major m l g =
        Except.error
          { status_code := 400,
            detail := "Invalid major. Must be one of: CSYE, INFO, DAMG" }) ∧
    (valid_majors.contains (upper m) = true →
      ∃ r, get_courses_by_major m l g = Except.ok r ∧ r.major = upper m) := by
  refine ⟨?_, ?_, ?_⟩
  · intro m2 h
    simp [get_courses_by_major, h]
  · intro h
    unfold get_courses_by_major
    rw [h]
    rfl
  · intro h
    refine ⟨{ major := upper m, courses := (g (upper m) l).map formatCourse,
              total_count := ((g (upper m) l).map formatCourse).length,
              limit := l }, ?_, rfl⟩
    unfold get_courses_by_major
    rw [h]
    rfl

/-- C7: the get-by-id operation returns a 404 error exactly when the
search collaborator's lookup returns no course, and otherwise the course
formatted with id as a string, code, name, description and major copied,
the list fields defaulted to empty when absent, and the creation
timestamp as an ISO-8601 string or absent. -/
theorem get_course_by_id_spec (cid : String) :
    (get_course_by_id cid none =
      Except.error
        { status_code := 404,
          detail := "Course with ID '" ++ cid ++ "' not found" }) ∧
    ∀ c : Course, get_course_by_id cid (some c) =
      Except.ok
        { id := toString c.id, course_id := c.course_id,
          course_name := c.course_name,
          course_description := c.course_description, major := c.major,
          domains := c.domains.getD [],
          skills_associated := c.skills_associated.getD [],
          prerequisites := c.prerequisites.getD [],
          created_at := c.created_at.map DateTime.isoformat } :=
  ⟨rfl, fun _ => rfl⟩

/-- C10: every successful list-by-major response has `total_count` equal
to the length of the `courses` list actually returned (for every
behavior of the by-major collaborator, including ones that truncate at
the limit). -/
theorem get_courses_by_major_total_count (m : String) (l : Nat)
    (g : String → Nat → List Course) (r : MajorResponse)
    (hr : get_courses_by_major m l g = Except.ok r) :
    r.total_count = r.courses.length := by
  unfold get_courses_by_major at hr
  split at hr
  · injection hr with h2
    subst h2
    rfl
  · exact Except.noConfusion hr

/-- A concrete course row used to instantiate hypotheses of the
list-by-major theorems. -/
def sampleCourse : Course :=
  ⟨7, "CSYE6200", "OOD", "Object design", "CSYE",
    some ["software"], some ["Java"], some [], none⟩

/-- Closed instance of `get_courses_by_major_total_count`: a collaborator
returning one course, so `total_count = 1 = length of courses`. -/
theorem get_courses_by_major_total_count_witness :
    ({ major := "CSYE", courses := [formatCourse sampleCourse],
       total_count := 1, limit := 1 } : MajorResponse).total_count =
      ({ major := "CSYE", courses := [formatCourse sampleCourse],
         total_count := 1, limit := 1 } : MajorResponse).courses.length :=
  get_courses_by_major_total_count "CSYE" 1 (fun _ _ => [sampleCourse])
    { major := "CSYE", courses := [formatCourse sampleCourse],
      total_count := 1, limit := 1 } rfl
